import Mathlib

/-!
Shallow embedding of `eshop/cart/cart.py` (class `Cart`, a shopping cart
stored in per-request session storage).

Modelling choices:
* A Python `dict` is an insertion-ordered association list with unique keys
  (`mapLookup` / `mapSet` / `mapPop` mirror `d[k]`, `d[k] = v`, `d.pop(k)`).
* A `Product` row is abstracted to the two fields the cart reads: `id`
  (a database integer, converted with `str`) and `price` (a `Decimal`
  column, represented by its decimal string form; `str(product.price)`
  is therefore the identity on this representation).
* `Decimal(s)` is `parseDecimal : String → Option ℚ`: Python `Decimal`
  arithmetic on these operands is exact rational arithmetic, and a failed
  parse (`InvalidOperation`) is `none`, propagated as the raised exception.
* The `Cart` object state is `CartState`: `cart` is the contents of the
  `self.cart` dict, `sessionCart` the value stored under
  `settings.CART_SESSION_ID` in the session (`none` when the key is
  absent), `attached` records whether `self.cart` and the session value
  are the same Python object (mutations through the alias are mirrored
  into `sessionCart` exactly when `attached` is true), and `modified` is
  the session's modified flag.
-/

namespace Eshop

/-- A catalog product, restricted to the fields `Cart` reads. -/
structure Product where
  id : Nat
  price : String
deriving DecidableEq

/-- One cart line item: `{'quantity': int, 'price': str(Decimal)}`. -/
structure LineItem where
  quantity : Int
  price : String
deriving DecidableEq

/-- The cart dict: product-id string → line item, in insertion order. -/
abbrev CartMap := List (String × LineItem)

/-- `m[k]` / `k in m`: first (unique) binding of `k`. -/
def mapLookup : CartMap → String → Option LineItem
  | [], _ => none
  | e :: rest, k => if e.1 = k then some e.2 else mapLookup rest k

/-- `m[k] = v`: replace the binding of `k` in place, else append it. -/
def mapSet : CartMap → String → LineItem → CartMap
  | [], k, v => [(k, v)]
  | e :: rest, k, v => if e.1 = k then (k, v) :: rest else e :: mapSet rest k v

/-- `m.pop(k)`: drop the binding of `k` (dict keys are unique). -/
def mapPop : CartMap → String → CartMap
  | [], _ => []
  | e :: rest, k => if e.1 = k then mapPop rest k else e :: mapPop rest k

/-- State of one `Cart` instance together with its session. -/
structure CartState where
  cart : CartMap
  sessionCart : Option CartMap
  attached : Bool
  modified : Bool
deriving DecidableEq

/-- `Cart.__init__` / `_get_or_create_cart`: reuse the session's cart dict
or store a fresh empty one; either way `self.cart` aliases the session's
value. -/
def Cart.init (sessionCart : Option CartMap) (modified : Bool) : CartState :=
  match sessionCart with
  | some m => { cart := m, sessionCart := some m, attached := true, modified := modified }
  | none => { cart := [], sessionCart := some [], attached := true, modified := modified }

/-- `Cart.save`: `self.session.modified = True`. -/
def Cart.save (st : CartState) : CartState :=
  { st with modified := true }

/-- Mutating `self.cart` in place: the session sees the new contents
exactly when it still holds the same dict object. -/
def withCart (st : CartState) (m : CartMap) : CartState :=
  { st with cart := m, sessionCart := if st.attached then some m else st.sessionCart }

/-- `if product_id not in self.cart: self.cart[product_id] =
{'quantity': 0, 'price': str(product.price)}`. -/
def ensureLine (m : CartMap) (pid : String) (price : String) : CartMap :=
  match mapLookup m pid with
  | some _ => m
  | none => mapSet m pid { quantity := 0, price := price }

/-- `self.cart[product_id]['quantity'] = quantity if override_quantity
else self.cart[product_id]['quantity'] + quantity`. -/
def setQuantity (m : CartMap) (pid : String) (quantity : Int) (override_quantity : Bool) : CartMap :=
  match mapLookup m pid with
  | some item =>
      mapSet m pid { item with quantity := if override_quantity then quantity else item.quantity + quantity }
  | none => m

/-- `Cart.add(product, quantity, override_quantity)`. -/
def Cart.add (st : CartState) (product : Product) (quantity : Int) (override_quantity : Bool) : CartState :=
  Cart.save (withCart st
    (setQuantity (ensureLine st.cart (toString product.id) product.price)
      (toString product.id) quantity override_quantity))

/-- `Cart.remove(product)`. -/
def Cart.remove (st : CartState) (product : Product) : CartState :=
  match mapLookup st.cart (toString product.id) with
  | some _ => Cart.save (withCart st (mapPop st.cart (toString product.id)))
  | none => st

/-- `Cart.clear`: delete the session key (the instance keeps its now
dangling `self.cart` reference). -/
def Cart.clear (st : CartState) : CartState :=
  match st.sessionCart with
  | some _ => Cart.save { st with sessionCart := none, attached := false }
  | none => st

/-- Value of an all-digit character run, most significant first. -/
def digitsToNat (cs : List Char) : Nat :=
  cs.foldl (fun n c => n * 10 + (c.toNat - 48)) 0

/-- `Decimal(s)` on the plain literals the cart stores: optional sign,
digits, optional fraction; exact rational value, `none` on a parse
failure (Python raises `InvalidOperation`). -/
def parseDecimal (s : String) : Option ℚ :=
  let cs := s.data
  let sg : ℚ := if cs.head? = some '-' then -1 else 1
  let body := if cs.head? = some '-' ∨ cs.head? = some '+' then cs.tail else cs
  let ip := body.takeWhile (fun c => c ≠ '.')
  match body.dropWhile (fun c => c ≠ '.') with
  | [] =>
      if ip ≠ [] ∧ ip.all Char.isDigit then
        some (sg * (digitsToNat ip : ℚ))
      else none
  | _ :: fp =>
      if (ip ≠ [] ∨ fp ≠ []) ∧ ip.all Char.isDigit ∧ fp.all Char.isDigit then
        some (sg * ((digitsToNat ip : ℚ) + (digitsToNat fp : ℚ) / (10 : ℚ) ^ fp.length))
      else none

/-- `sum(Decimal(item['price']) * item['quantity'] for item in
self.cart.values())`: left-to-right, the first failing parse raises. -/
def totalPriceAux : CartMap → Option ℚ
  | [] => some 0
  | e :: rest =>
      match parseDecimal e.2.price with
      | none => none
      | some d =>
          match totalPriceAux rest with
          | none => none
          | some s => some (d * (e.2.quantity : ℚ) + s)

/-- `Cart.get_total_price`. -/
def Cart.get_total_price (st : CartState) : Option ℚ :=
  totalPriceAux st.cart

/-- One enriched record yielded by `Cart.__iter__`. -/
structure EnrichedItem where
  quantity : Int
  price : ℚ
  total_price : ℚ
  product : Product
deriving DecidableEq

/-- `item.copy()` plus the `product`, `price`, `total_price` fields. -/
def enrich (item : LineItem) (d : ℚ) (p : Product) : EnrichedItem :=
  { quantity := item.quantity, price := d, total_price := d * (item.quantity : ℚ), product := p }

/-- `Product.objects.filter(id__in=product_ids)`. -/
def catalogFilterByIds (catalog : List Product) (ids : List String) : List Product :=
  catalog.filter (fun p => decide (toString p.id ∈ ids))

/-- `product_lookup[pid]` for `{str(p.id): p for p in products}`: the last
matching product wins, as in a dict comprehension. -/
def product_lookup (products : List Product) (pid : String) : Option Product :=
  (products.filter (fun p => decide (toString p.id = pid))).getLast?

/-- The `for product_id, item in self.cart.items()` loop body of
`Cart.__iter__`: skip ids missing from the lookup, parse and enrich the
rest (the parse only runs for found ids). -/
def iterAux (lk : String → Option Product) : CartMap → Option (List EnrichedItem)
  | [] => some []
  | e :: rest =>
      match lk e.1 with
      | some p =>
          match parseDecimal e.2.price with
          | none => none
          | some d => (iterAux lk rest).map (fun l => enrich e.2 d p :: l)
      | none => iterAux lk rest

/-- `Cart.__iter__` run to completion against a catalog snapshot. -/
def Cart.iter (st : CartState) (catalog : List Product) : Option (List EnrichedItem) :=
  iterAux (fun pid => product_lookup (catalogFilterByIds catalog (st.cart.map Prod.fst)) pid) st.cart

/-- `Cart.__len__`: `sum(item['quantity'] for item in self.cart.values())`. -/
def Cart.length (st : CartState) : Int :=
  (st.cart.map (fun e => e.2.quantity)).sum

/-! ### Concrete fixtures used by the spec's worked examples -/

/-- A fresh cart in a session that had none (`Cart.__init__` on a new session). -/
def emptyCart : CartState := Cart.init none false

/-- A product with id 7 priced `10`. -/
def prodP10 : Product := ⟨7, "10"⟩

/-- The same product id 7 after a catalog price change to `99`. -/
def prodP99 : Product := ⟨7, "99"⟩

/-- Product `A` of the spec's worked example: qty 2 at price `5.00`. -/
def prodA : Product := ⟨1, "5.00"⟩

/-- Product `B` of the spec's worked example: qty 1 at price `3.50`. -/
def prodB : Product := ⟨2, "3.50"⟩

/-- The spec's worked cart `{A: qty 2 price 5.00, B: qty 1 price 3.50}`. -/
def exampleCart : CartState := Cart.add (Cart.add emptyCart prodA 2 false) prodB 1 false

/-- A product still present in the catalog at iteration time. -/
def prodKept : Product := ⟨1, "2.00"⟩

/-- A product that is deleted from the catalog after being added. -/
def prodGone : Product := ⟨2, "4.00"⟩

/-- A cart holding both `prodKept` and `prodGone`. -/
def staleCart : CartState := Cart.add (Cart.add emptyCart prodKept 1 false) prodGone 1 false

/-- A session already holding a one-line cart, for the remove example. -/
def stR : CartState := Cart.init (some [("3", ⟨2, "9"⟩)]) false

/-- A session already holding a one-line cart, for the frame example. -/
def stF : CartState := Cart.init (some [("9", ⟨1, "2"⟩)]) false

/-! ### Lemmas about the dict operations -/

lemma mapLookup_mapSet_self (m : CartMap) (k : String) (v : LineItem) :
    mapLookup (mapSet m k v) k = some v := by
  induction m with
  | nil => simp [mapSet, mapLookup]
  | cons e rest ih =>
      by_cases h : e.1 = k
      · simp [mapSet, mapLookup, h]
      · simp [mapSet, mapLookup, h, ih]

lemma mapLookup_mapSet_of_ne (m : CartMap) (k : String) (v : LineItem) (k' : String)
    (h : k' ≠ k) : mapLookup (mapSet m k v) k' = mapLookup m k' := by
  have h1 : ¬(k = k') := fun hh => h hh.symm
  induction m with
  | nil => simp [mapSet, mapLookup, h1]
  | cons e rest ih =>
      by_cases he : e.1 = k
      · have h2 : ¬(e.1 = k') := by rw [he]; exact h1
        simp [mapSet, mapLookup, he, h1, h2]
      · by_cases he' : e.1 = k'
        · simp [mapSet, mapLookup, he, he', h]
        · simp [mapSet, mapLookup, he, he', ih]

lemma mapSet_mapSet (m : CartMap) (k : String) (v w : LineItem) :
    mapSet (mapSet m k v) k w = mapSet m k w := by
  induction m with
  | nil => simp [mapSet]
  | cons e rest ih =>
      by_cases h : e.1 = k
      · simp [mapSet, h]
      · simp [mapSet, h, ih]

lemma mapLookup_mapPop_self (m : CartMap) (k : String) :
    mapLookup (mapPop m k) k = none := by
  induction m with
  | nil => simp [mapPop, mapLookup]
  | cons e rest ih =>
      by_cases h : e.1 = k
      · simp [mapPop, h, ih]
      · simp [mapPop, mapLookup, h, ih]

lemma mapLookup_mapPop_of_ne (m : CartMap) (k k' : String) (h : k' ≠ k) :
    mapLookup (mapPop m k) k' = mapLookup m k' := by
  induction m with
  | nil => simp [mapPop]
  | cons e rest ih =>
      by_cases he : e.1 = k
      · have h2 : ¬(k = k') := fun hh => h hh.symm
        simp [mapPop, mapLookup, he, h2, ih]
      · simp [mapPop, mapLookup, he, ih]

/-! ### Lemmas about `Cart.add` -/

lemma Cart.add_cart (st : CartState) (p : Product) (q : Int) (ov : Bool) :
    (Cart.add st p q ov).cart
      = setQuantity (ensureLine st.cart (toString p.id) p.price) (toString p.id) q ov := rfl

lemma Cart.add_modified (st : CartState) (p : Product) (q : Int) (ov : Bool) :
    (Cart.add st p q ov).modified = true := rfl

lemma Cart.add_sessionCart (st : CartState) (p : Product) (q : Int) (ov : Bool) :
    (Cart.add st p q ov).sessionCart
      = if st.attached then some ((Cart.add st p q ov).cart) else st.sessionCart := rfl

lemma Cart.add_attached (st : CartState) (p : Product) (q : Int) (ov : Bool) :
    (Cart.add st p q ov).attached = st.attached := rfl

lemma addLine_of_absent (m : CartMap) (pid price : String) (q : Int) (ov : Bool)
    (h : mapLookup m pid = none) :
    setQuantity (ensureLine m pid price) pid q ov = mapSet m pid ⟨q, price⟩ := by
  simp only [ensureLine, h, setQuantity, mapLookup_mapSet_self, mapSet_mapSet]
  cases ov <;> simp

lemma addLine_of_present (m : CartMap) (pid price : String) (q : Int) (ov : Bool)
    (item : LineItem) (h : mapLookup m pid = some item) :
    setQuantity (ensureLine m pid price) pid q ov
      = mapSet m pid ⟨if ov then q else item.quantity + q, item.price⟩ := by
  simp only [ensureLine, h, setQuantity]

lemma addLine_lookup_of_ne (m : CartMap) (pid price : String) (q : Int) (ov : Bool)
    (pid' : String) (h : pid' ≠ pid) :
    mapLookup (setQuantity (ensureLine m pid price) pid q ov) pid' = mapLookup m pid' := by
  cases hm : mapLookup m pid with
  | none => rw [addLine_of_absent m pid price q ov hm, mapLookup_mapSet_of_ne _ _ _ _ h]
  | some item => rw [addLine_of_present m pid price q ov item hm, mapLookup_mapSet_of_ne _ _ _ _ h]

/-! ### Lemmas about the total-price and iteration recursions -/

lemma totalPriceAux_eq_sum (m : CartMap)
    (h : ∀ e ∈ m, (parseDecimal e.2.price).isSome) :
    totalPriceAux m
      = some ((m.map (fun e => ((parseDecimal e.2.price).getD 0) * (e.2.quantity : ℚ))).sum) := by
  induction m with
  | nil => simp [totalPriceAux]
  | cons e rest ih =>
      obtain ⟨d, hd⟩ := Option.isSome_iff_exists.mp (h e (List.mem_cons_self e rest))
      have hrest := ih (fun x hx => h x (List.mem_cons_of_mem e hx))
      simp [totalPriceAux, hd, hrest]

lemma iterAux_eq_filterMap (lk : String → Option Product) (m : CartMap)
    (h : ∀ e ∈ m, (parseDecimal e.2.price).isSome) :
    iterAux lk m
      = some (m.filterMap (fun e =>
          (lk e.1).bind (fun p => (parseDecimal e.2.price).map (fun d => enrich e.2 d p)))) := by
  induction m with
  | nil => simp [iterAux]
  | cons e rest ih =>
      have hrest := ih (fun x hx => h x (List.mem_cons_of_mem e hx))
      cases hp : lk e.1 with
      | none => simp [iterAux, hp, hrest]
      | some p =>
          obtain ⟨d, hd⟩ := Option.isSome_iff_exists.mp (h e (List.mem_cons_self e rest))
          simp [iterAux, hp, hd, hrest, List.filterMap_cons]

lemma filterMapCongr {α β : Type} (f g : α → Option β) :
    ∀ l : List α, (∀ a ∈ l, f a = g a) → l.filterMap f = l.filterMap g
  | [], _ => rfl
  | a :: l, h => by
      have hl := filterMapCongr f g l (fun x hx => h x (List.mem_cons_of_mem a hx))
      simp [List.filterMap_cons, h a (List.mem_cons_self a l), hl]

lemma product_lookup_filterIds (catalog : List Product) (ids : List String) (pid : String)
    (h : pid ∈ ids) :
    product_lookup (catalogFilterByIds catalog ids) pid = product_lookup catalog pid := by
  unfold product_lookup catalogFilterByIds
  rw [List.filter_filter]
  congr 1
  apply List.filter_congr
  intro p _
  by_cases hp : toString p.id = pid
  · simp [hp, h]
  · simp [hp]

/-! ### Evaluations of `parseDecimal` on the price strings of the examples -/

lemma parse_10 : parseDecimal "10" = some 10 := by
  simp +decide [parseDecimal, digitsToNat]

lemma parse_5_00 : parseDecimal "5.00" = some 5 := by
  simp +decide [parseDecimal, digitsToNat]

lemma parse_3_50 : parseDecimal "3.50" = some (7 / 2) := by
  simp +decide [parseDecimal, digitsToNat]
  norm_num

lemma parse_2_00 : parseDecimal "2.00" = some 2 := by
  simp +decide [parseDecimal, digitsToNat]

/-! ### The claims -/

/-- C1: for a cart in which product `p` is already present with stored price
`s`, any later `add(p, unit_price, quantity, override_quantity)` leaves the
stored price of `p`'s line item equal to `s`, whatever unit price, quantity
and override flag are supplied — the price snapshot is set only at the first
insertion.  Consequently `add(p, price=10)` followed by `add(p, price=99)`
(defaults: quantity 1, no override) totals `2 × 10 = 20`, using 10 for all
of `p`'s quantity. -/
theorem add_keeps_price_snapshot :
    (∀ (st : CartState) (p : Product) (q : Int) (ov : Bool) (item : LineItem),
        mapLookup st.cart (toString p.id) = some item →
        (mapLookup (Cart.add st p q ov).cart (toString p.id)).map LineItem.price
          = some item.price) ∧
    Cart.get_total_price (Cart.add (Cart.add emptyCart prodP10 1 false) prodP99 1 false)
      = some 20 := by
  constructor
  · intro st p q ov item h
    rw [Cart.add_cart, addLine_of_present _ _ _ _ _ _ h, mapLookup_mapSet_self]
    rfl
  · have h : (Cart.add (Cart.add emptyCart prodP10 1 false) prodP99 1 false).cart
        = [("7", ⟨2, "10"⟩)] := by decide
    rw [Cart.get_total_price, h]
    simp [totalPriceAux, parse_10]
    norm_num

/-- Witness for C1 at a concrete state: id 7 stored with price `10`,
re-added with supplied price `99`, override true — the snapshot stays `10`. -/
theorem add_keeps_price_snapshot_witness :
    (mapLookup (Cart.add (Cart.init (some [("7", ⟨3, "10"⟩)]) false) prodP99 2 true).cart "7").map
        LineItem.price = some "10" :=
  add_keeps_price_snapshot.1 (Cart.init (some [("7", ⟨3, "10"⟩)]) false) prodP99 2 true
    ⟨3, "10"⟩ (by decide)

/-- C2: `add` on an absent product id creates the line item with the supplied
price snapshot and quantity equal to the argument (it starts from 0, so
override or not gives the same result); on a present id the new quantity is
`quantity` under override and old `+ quantity` otherwise.  In particular
qty 2 then qty 3 (no override) gives 5, and qty 2 then qty 5 with override
gives 5, not 7. -/
theorem add_quantity_semantics :
    (∀ (st : CartState) (p : Product) (q : Int) (ov : Bool),
        mapLookup st.cart (toString p.id) = none →
        mapLookup (Cart.add st p q ov).cart (toString p.id) = some ⟨q, p.price⟩) ∧
    (∀ (st : CartState) (p : Product) (q : Int) (ov : Bool) (item : LineItem),
        mapLookup st.cart (toString p.id) = some item →
        mapLookup (Cart.add st p q ov).cart (toString p.id)
          = some ⟨if ov then q else item.quantity + q, item.price⟩) ∧
    mapLookup (Cart.add (Cart.add emptyCart prodP10 2 false) prodP10 3 false).cart "7"
      = some ⟨5, "10"⟩ ∧
    mapLookup (Cart.add (Cart.add emptyCart prodP10 2 false) prodP10 5 true).cart "7"
      = some ⟨5, "10"⟩ := by
  refine ⟨?_, ?_, by decide, by decide⟩
  · intro st p q ov h
    rw [Cart.add_cart, addLine_of_absent _ _ _ _ _ h, mapLookup_mapSet_self]
  · intro st p q ov item h
    rw [Cart.add_cart, addLine_of_present _ _ _ _ _ _ h, mapLookup_mapSet_self]

/-- Witness for C2 at a concrete state: adding id 7 qty 2 to the fresh cart
creates the line item `{quantity: 2, price: "10"}`. -/
theorem add_quantity_semantics_witness :
    mapLookup (Cart.add emptyCart prodP10 2 false).cart "7" = some ⟨2, "10"⟩ :=
  add_quantity_semantics.1 emptyCart prodP10 2 false (by decide)

/-- C3: when every stored price string parses as a decimal,
`get_total_price` returns exactly the sum of parsed price × quantity in
exact rational arithmetic; the empty cart totals 0, and the cart
`{A: qty 2 price 5.00, B: qty 1 price 3.50}` totals exactly `13.50 = 27/2`. -/
theorem get_total_price_exact :
    (∀ st : CartState, (∀ e ∈ st.cart, (parseDecimal e.2.price).isSome) →
        Cart.get_total_price st
          = some ((st.cart.map
              (fun e => ((parseDecimal e.2.price).getD 0) * (e.2.quantity : ℚ))).sum)) ∧
    Cart.get_total_price emptyCart = some 0 ∧
    Cart.get_total_price exampleCart = some (27 / 2) := by
  refine ⟨?_, by decide, ?_⟩
  · intro st h
    exact totalPriceAux_eq_sum st.cart h
  · have h : exampleCart.cart = [("1", ⟨2, "5.00"⟩), ("2", ⟨1, "3.50"⟩)] := by decide
    rw [Cart.get_total_price, h]
    simp [totalPriceAux, parse_5_00, parse_3_50]
    norm_num

/-- Witness for C3 at the spec's worked cart, whose two price strings both
parse. -/
theorem get_total_price_exact_witness :
    Cart.get_total_price exampleCart
      = some ((exampleCart.cart.map
          (fun e => ((parseDecimal e.2.price).getD 0) * (e.2.quantity : ℚ))).sum) :=
  get_total_price_exact.1 exampleCart (by decide)

/-- C4: `__len__` is the sum of all line-item quantities — the total item
count, not the distinct-product count: 0 on the empty cart, and 3 (not 2)
on the worked cart, which holds 2 distinct products. -/
theorem length_is_total_quantity :
    (∀ st : CartState, Cart.length st = (st.cart.map (fun e => e.2.quantity)).sum) ∧
    Cart.length emptyCart = 0 ∧
    Cart.length exampleCart = 3 ∧
    exampleCart.cart.length = 2 :=
  ⟨fun _ => rfl, by decide, by decide, by decide⟩

/-- C5: iteration yields exactly one enriched record per line item whose
product id is found in the catalog — items whose id is absent are omitted
from the yielded sequence but stay in the cart's mapping (iteration is a
pure read of the state) — and each record carries the stored quantity, the
stored price parsed as a decimal, `total_price = price × quantity`, and the
current catalog product record.  Concretely, a cart holding ids 1 and 2
iterated against a catalog holding only id 1 yields just the enriched
record for id 1, while id 2 is still in the mapping. -/
theorem iter_enriches_found_items :
    (∀ (st : CartState) (catalog : List Product),
        (∀ e ∈ st.cart, (parseDecimal e.2.price).isSome) →
        Cart.iter st catalog
          = some (st.cart.filterMap (fun e =>
              (product_lookup catalog e.1).bind (fun p =>
                (parseDecimal e.2.price).map (fun d => enrich e.2 d p))))) ∧
    Cart.iter staleCart [prodKept] = some [⟨1, 2, 2, prodKept⟩] ∧
    mapLookup staleCart.cart "2" = some ⟨1, "4.00"⟩ := by
  refine ⟨?_, ?_, by decide⟩
  · intro st catalog h
    rw [Cart.iter, iterAux_eq_filterMap _ _ h]
    congr 1
    apply filterMapCongr
    intro e he
    rw [product_lookup_filterIds]
    exact List.mem_map.mpr ⟨e, he, rfl⟩
  · have h : staleCart.cart = [("1", ⟨1, "2.00"⟩), ("2", ⟨1, "4.00"⟩)] := by decide
    rw [Cart.iter, h]
    simp +decide [iterAux, product_lookup, catalogFilterByIds, parse_2_00, enrich, prodKept]

/-- Witness for C5 at the stale cart, whose price strings all parse. -/
theorem iter_enriches_found_items_witness :
    Cart.iter staleCart [prodKept]
      = some (staleCart.cart.filterMap (fun e =>
          (product_lookup [prodKept] e.1).bind (fun p =>
            (parseDecimal e.2.price).map (fun d => enrich e.2 d p)))) :=
  iter_enriches_found_items.1 staleCart [prodKept] (by decide)

/-- C6: `remove(p)` deletes `p`'s line item and marks the session dirty when
`p` is present (other line items untouched), and is a complete no-op — cart
mapping and modified flag unchanged, no error — when `p` is absent. -/
theorem remove_semantics :
    (∀ (st : CartState) (p : Product) (item : LineItem),
        mapLookup st.cart (toString p.id) = some item →
        mapLookup (Cart.remove st p).cart (toString p.id) = none ∧
        (Cart.remove st p).modified = true ∧
        ∀ pid, pid ≠ toString p.id →
          mapLookup (Cart.remove st p).cart pid = mapLookup st.cart pid) ∧
    (∀ (st : CartState) (p : Product),
        mapLookup st.cart (toString p.id) = none → Cart.remove st p = st) := by
  constructor
  · intro st p item h
    have hr : Cart.remove st p = Cart.save (withCart st (mapPop st.cart (toString p.id))) := by
      simp only [Cart.remove, h]
    refine ⟨?_, ?_, ?_⟩
    · rw [hr]; exact mapLookup_mapPop_self st.cart _
    · rw [hr]; rfl
    · intro pid hpid; rw [hr]; exact mapLookup_mapPop_of_ne st.cart _ pid hpid
  · intro st p h
    simp only [Cart.remove, h]

/-- Witness for C6 at a concrete state: removing the present id 3 empties
its binding and marks the session modified. -/
theorem remove_semantics_witness :
    mapLookup (Cart.remove stR ⟨3, "9"⟩).cart "3" = none ∧
    (Cart.remove stR ⟨3, "9"⟩).modified = true :=
  ⟨(remove_semantics.1 stR ⟨3, "9"⟩ ⟨2, "9"⟩ (by decide)).1,
   (remove_semantics.1 stR ⟨3, "9"⟩ ⟨2, "9"⟩ (by decide)).2.1⟩

/-- C7: `clear()` deletes the whole cart key from the session (the key
becomes absent, not an empty mapping) and marks the session dirty when the
key is present; when the key is already absent it is a complete no-op and
raises nothing. -/
theorem clear_semantics :
    (∀ st : CartState, st.sessionCart.isSome →
        (Cart.clear st).sessionCart = none ∧ (Cart.clear st).modified = true) ∧
    (∀ st : CartState, st.sessionCart = none → Cart.clear st = st) := by
  constructor
  · intro st h
    obtain ⟨m, hm⟩ := Option.isSome_iff_exists.mp h
    have hc : Cart.clear st = Cart.save { st with sessionCart := none, attached := false } := by
      simp only [Cart.clear, hm]
    rw [hc]
    exact ⟨rfl, rfl⟩
  · intro st h
    simp only [Cart.clear, h]

/-- Witness for C7 at the fresh cart, whose session holds the cart key. -/
theorem clear_semantics_witness :
    (Cart.clear emptyCart).sessionCart = none ∧ (Cart.clear emptyCart).modified = true :=
  clear_semantics.1 emptyCart (by decide)

/-- C8: every `add` sets the session's modified flag, changes no line item
other than `p`'s, and — for an attached instance — the session's cart key
still holds the very mapping the instance mutated. -/
theorem add_marks_modified_and_frames :
    (∀ (st : CartState) (p : Product) (q : Int) (ov : Bool),
        (Cart.add st p q ov).modified = true) ∧
    (∀ (st : CartState) (p : Product) (q : Int) (ov : Bool) (pid : String),
        pid ≠ toString p.id →
        mapLookup (Cart.add st p q ov).cart pid = mapLookup st.cart pid) ∧
    (∀ (st : CartState) (p : Product) (q : Int) (ov : Bool),
        st.attached = true →
        (Cart.add st p q ov).sessionCart = some ((Cart.add st p q ov).cart)) := by
  refine ⟨fun st p q ov => rfl, ?_, ?_⟩
  · intro st p q ov pid h
    rw [Cart.add_cart]
    exact addLine_lookup_of_ne st.cart _ _ q ov pid h
  · intro st p q ov h
    rw [Cart.add_sessionCart, h]
    simp

/-- Witness for C8 at a concrete attached state: adding id 4 leaves the
binding of id 9 unchanged and the session still holds the mutated mapping. -/
theorem add_marks_modified_and_frames_witness :
    mapLookup (Cart.add stF ⟨4, "7"⟩ 1 false).cart "9" = mapLookup stF.cart "9" ∧
    (Cart.add stF ⟨4, "7"⟩ 1 false).sessionCart = some ((Cart.add stF ⟨4, "7"⟩ 1 false).cart) :=
  ⟨add_marks_modified_and_frames.2.1 stF ⟨4, "7"⟩ 1 false "9" (by decide),
   add_marks_modified_and_frames.2.2 stF ⟨4, "7"⟩ 1 false (by decide)⟩

/-- C9: on any cart state whose stored price strings all parse (quantities
may be zero or negative), `get_total_price` and iteration complete without
raising; `add`, `remove`, `clear` and `__len__` are total by construction
and need no side condition. -/
theorem operations_do_not_raise :
    ∀ (st : CartState) (catalog : List Product),
      (∀ e ∈ st.cart, (parseDecimal e.2.price).isSome) →
      (Cart.get_total_price st).isSome ∧ (Cart.iter st catalog).isSome := by
  intro st catalog h
  constructor
  · rw [Cart.get_total_price, totalPriceAux_eq_sum st.cart h]; rfl
  · rw [Cart.iter, iterAux_eq_filterMap _ _ h]; rfl

/-- Witness for C9 at a cart with a negative quantity whose prices parse. -/
theorem operations_do_not_raise_witness :
    (Cart.get_total_price (Cart.add exampleCart prodA (-3) false)).isSome ∧
    (Cart.iter (Cart.add exampleCart prodA (-3) false) [prodA]).isSome :=
  operations_do_not_raise (Cart.add exampleCart prodA (-3) false) [prodA] (by decide)

/-- C10: once `clear()` has run on an instance whose session held the cart
key, the instance's own dict is detached: a later `add` on the same
instance stores the line item in that detached dict and marks the session
modified, but the session still has no cart key, so the addition is
invisible to the session layer. -/
theorem clear_detaches_cart_reference :
    ∀ (st : CartState) (p : Product) (q : Int) (ov : Bool),
      st.sessionCart.isSome →
      (Cart.add (Cart.clear st) p q ov).sessionCart = none ∧
      (Cart.add (Cart.clear st) p q ov).modified = true ∧
      (mapLookup (Cart.add (Cart.clear st) p q ov).cart (toString p.id)).isSome := by
  intro st p q ov h
  obtain ⟨m, hm⟩ := Option.isSome_iff_exists.mp h
  have hc : Cart.clear st = Cart.save { st with sessionCart := none, attached := false } := by
    simp only [Cart.clear, hm]
  refine ⟨?_, rfl, ?_⟩
  · rw [hc, Cart.add_sessionCart]
    rfl
  · cases hl : mapLookup (Cart.clear st).cart (toString p.id) with
    | none =>
        rw [Cart.add_cart, addLine_of_absent _ _ _ _ _ hl, mapLookup_mapSet_self]
        rfl
    | some item =>
        rw [Cart.add_cart, addLine_of_present _ _ _ _ _ _ hl, mapLookup_mapSet_self]
        rfl

/-- Witness for C10: clear the fresh cart, then add id 7 — the item lands in
the detached dict while the session key stays absent. -/
theorem clear_detaches_cart_reference_witness :
    (Cart.add (Cart.clear emptyCart) prodP10 1 false).sessionCart = none ∧
    (Cart.add (Cart.clear emptyCart) prodP10 1 false).modified = true ∧
    (mapLookup (Cart.add (Cart.clear emptyCart) prodP10 1 false).cart "7").isSome :=
  clear_detaches_cart_reference emptyCart prodP10 1 false (by decide)

end Eshop
